import Mathlib

/-!
Verification of the response-normalization / tool-dispatch layer of the
alphav library (`src/tool_use.rs`): the JSON data model, the per-endpoint
response transformers, the static tool catalog and the `call_tool`
dispatcher, with theorems settling the specification's claims about them.
-/

namespace Alphav

/-- JSON values, as `serde_json::Value`: an object is its list of entries in
iteration order (a serde map holds each key at most once; the embedding
quantifies over all entry lists, a superset of those maps). Numbers are
carried opaquely as integers; no transform inspects a number. -/
inductive Json where
  | null
  | bool (b : Bool)
  | num (n : Int)
  | str (s : String)
  | arr (elems : List Json)
  | obj (entries : List (String × Json))

/-- `serde_json::Map::get` on an object's entry list: the value of the first
entry whose key matches. -/
def mapGet (entries : List (String × Json)) (key : String) : Option Json :=
  (entries.find? (fun e => e.1 == key)).map (fun e => e.2)

/-- `Value::get(key)`: `some` only on objects holding the key. -/
def Json.get : Json → String → Option Json
  | .obj entries, key => mapGet entries key
  | _, _ => none

/-- `Value::as_object`. -/
def Json.asObject : Json → Option (List (String × Json))
  | .obj entries => some entries
  | _ => none

/-- `Value::as_array`. -/
def Json.asArray : Json → Option (List Json)
  | .arr elems => some elems
  | _ => none

/-- `Value::as_str`. -/
def Json.asStr : Json → Option String
  | .str s => some s
  | _ => none

/-- Lexicographic comparison of code-point sequences. On valid UTF-8 the
byte-wise `Ord` on Rust `String` (used by every `sort_by` comparator in
`tool_use.rs`) coincides with code-point order, so this is that order. -/
def charsLe : List Char → List Char → Bool
  | [], _ => true
  | _ :: _, [] => false
  | c :: cs, d :: ds =>
    if c.toNat < d.toNat then true
    else if d.toNat < c.toNat then false
    else charsLe cs ds

/-- `a <= b` in Rust's `String` ordering. -/
def strLe (a b : String) : Bool := charsLe a.data b.data

/-- Stable insertion: `x` goes in front of the first element `y` with
`le x y`, so an element tied with `x` keeps its place in front of `x`. -/
def insertSorted {α : Type} (le : α → α → Bool) (x : α) : List α → List α
  | [] => [x]
  | y :: ys => if le x y then x :: y :: ys else y :: insertSorted le x ys

/-- Structural stable sort. `Vec::sort_by` is a stable sort, and for a total,
transitive comparator a stable sort's output is uniquely determined, so this
insertion sort is extensionally the source's `sort_by`. -/
def sortBy {α : Type} (le : α → α → Bool) : List α → List α
  | [] => []
  | x :: xs => insertSorted le x (sortBy le xs)

/-- `Error`, restricted to the `Custom` variant: the only variant
`tool_use.rs` constructs. The spec's error taxonomy labels these message
strings (`MissingField`, `MissingParam`, `InvalidParam`, `UnknownTool`,
`TransformError`). -/
inductive Error where
  | custom (msg : String)
deriving DecidableEq

/-- `emporium_core::ColumnDef` as used by the transforms. -/
structure ColumnDef where
  name : String
  «alias» : String
  dtype : String
deriving DecidableEq

/-- `emporium_core::Schema`. -/
abbrev Schema := List ColumnDef

/-- `emporium_core::ToolInfo`: the catalog descriptor. -/
structure ToolInfo where
  id : String
  name : String
  description : String
  schema : Json

/-- `ToolCallResult` (`tool_use.rs` lines 19–31). -/
inductive ToolCallResult where
  | text (s : String)
  | dataFrame (data : Json) (schema : Schema) (metadata : Option Json)

/-- The sort key each comparator extracts from a row:
`row.get(key).and_then(as_str).unwrap_or("")`. -/
def rowKeyStr (key : String) (row : Json) : String :=
  ((row.get key).bind Json.asStr).getD ""

/-- The comparator of every `sort_by` in the transforms: row `a` may precede
row `b` when `key(b).cmp(key(a))` is `Less` or `Equal`, i.e. descending by
the designated date key. -/
def rowLe (key : String) (a b : Json) : Bool :=
  strLe (rowKeyStr key b) (rowKeyStr key a)

/-- One output row of a time-series transform (`tool_use.rs` 233–255,
313–335, 393–415, 473–495): the entry's date/time key under the endpoint's
date-column name, then the five vendor OHLCV fields, `null` when absent. -/
def tsRow (dateCol date : String) (valuesObj : List (String × Json)) : Json :=
  .obj [
    (dateCol, .str date),
    ("open", (mapGet valuesObj "1. open").getD .null),
    ("high", (mapGet valuesObj "2. high").getD .null),
    ("low", (mapGet valuesObj "3. low").getD .null),
    ("close", (mapGet valuesObj "4. close").getD .null),
    ("volume", (mapGet valuesObj "5. volume").getD .null)]

/-- The row-building loop of the time-series transforms: one row per entry
whose value is an object (`if let Some(values_obj) = values.as_object()`);
entries with non-object values are skipped. -/
def tsEntryRows (dateCol : String) (entries : List (String × Json)) : List Json :=
  entries.filterMap (fun e => (e.2.asObject).map (tsRow dateCol e.1))

/-- The fixed six-column schema shared by the four time-series transforms. -/
def tsSchema (dateCol dateAlias : String) : Schema :=
  [⟨dateCol, dateAlias, "string"⟩,
   ⟨"open", "Open", "number"⟩,
   ⟨"high", "High", "number"⟩,
   ⟨"low", "Low", "number"⟩,
   ⟨"close", "Close", "number"⟩,
   ⟨"volume", "Volume", "number"⟩]

/-- Common body of the four time-series transforms; `tool_use.rs` repeats
this body verbatim four times, differing only in the vendor block key, the
date-column name and its display alias. -/
def transformTimeSeries (blockKey dateCol dateAlias : String) (response : Json) :
    Except Error (Json × Option Json × Schema) :=
  let metadata := response.get "Meta Data"
  match (response.get blockKey).bind Json.asObject with
  | none => .error (.custom ("No '" ++ blockKey ++ "' data found in response"))
  | some timeSeriesObj =>
      .ok (.arr (sortBy (rowLe dateCol) (tsEntryRows dateCol timeSeriesObj)),
           metadata, tsSchema dateCol dateAlias)

/-- `transform_intraday_response` (220–299): block key
`"Time Series ({interval})"`, date column `timestamp`. -/
def transform_intraday_response (response : Json) (interval : String) :
    Except Error (Json × Option Json × Schema) :=
  transformTimeSeries ("Time Series (" ++ interval ++ ")") "timestamp" "Timestamp" response

/-- `transform_daily_response` (302–379). -/
def transform_daily_response (response : Json) :
    Except Error (Json × Option Json × Schema) :=
  transformTimeSeries "Time Series (Daily)" "date" "Date" response

/-- `transform_weekly_response` (382–459). -/
def transform_weekly_response (response : Json) :
    Except Error (Json × Option Json × Schema) :=
  transformTimeSeries "Weekly Time Series" "week_ending" "Week Ending" response

/-- `transform_monthly_response` (462–539). -/
def transform_monthly_response (response : Json) :
    Except Error (Json × Option Json × Schema) :=
  transformTimeSeries "Monthly Time Series" "month" "Month" response

/-- The hand-declared schema of `transform_company_overview_response`. -/
def overviewSchema : Schema :=
  [⟨"Symbol", "Symbol", "string"⟩,
   ⟨"Name", "Company Name", "string"⟩,
   ⟨"AssetType", "Asset Type", "string"⟩,
   ⟨"Exchange", "Exchange", "string"⟩,
   ⟨"Currency", "Currency", "string"⟩,
   ⟨"Country", "Country", "string"⟩,
   ⟨"Sector", "Sector", "string"⟩,
   ⟨"Industry", "Industry", "string"⟩,
   ⟨"MarketCapitalization", "Market Cap", "number"⟩,
   ⟨"EBITDA", "EBITDA", "number"⟩,
   ⟨"PERatio", "P/E Ratio", "number"⟩,
   ⟨"PEGRatio", "PEG Ratio", "number"⟩,
   ⟨"BookValue", "Book Value", "number"⟩,
   ⟨"DividendPerShare", "Dividend Per Share", "number"⟩,
   ⟨"DividendYield", "Dividend Yield", "number"⟩,
   ⟨"EPS", "EPS", "number"⟩,
   ⟨"RevenuePerShareTTM", "Revenue Per Share TTM", "number"⟩,
   ⟨"ProfitMargin", "Profit Margin", "number"⟩,
   ⟨"OperatingMarginTTM", "Operating Margin TTM", "number"⟩,
   ⟨"ReturnOnAssetsTTM", "Return on Assets TTM", "number"⟩,
   ⟨"ReturnOnEquityTTM", "Return on Equity TTM", "number"⟩,
   ⟨"RevenueTTM", "Revenue TTM", "number"⟩,
   ⟨"GrossProfitTTM", "Gross Profit TTM", "number"⟩]

/-- `transform_company_overview_response` (542–573): a single-row array
holding the whole response, no metadata. -/
def transform_company_overview_response (response : Json) :
    Except Error (Json × Option Json × Schema) :=
  .ok (.arr [response], none, overviewSchema)

/-- `response.get("symbol").map(|s| json!({"symbol": s}))`, the metadata of
the fundamentals transforms. -/
def symbolMetadata (response : Json) : Option Json :=
  (response.get "symbol").map (fun s => Json.obj [("symbol", s)])

/-- `if let Some(items) = v.and_then(as_array) { for item in items { push row } }`:
one row per element, the empty list when the value is absent or no array. -/
def arrayRows (v : Option Json) (rowOf : Json → Json) : List Json :=
  match v.bind Json.asArray with
  | some items => items.map rowOf
  | none => []

/-- An annual row of `transform_earnings_response` (584–590): three keys
only; the quarterly-only keys are never inserted. -/
def earningsAnnualRow (earning : Json) : Json :=
  .obj [
    ("period_type", .str "annual"),
    ("fiscal_date_ending", (earning.get "fiscalDateEnding").getD .null),
    ("reported_eps", (earning.get "reportedEPS").getD .null)]

/-- A quarterly row of `transform_earnings_response` (595–604): seven keys. -/
def earningsQuarterlyRow (earning : Json) : Json :=
  .obj [
    ("period_type", .str "quarterly"),
    ("fiscal_date_ending", (earning.get "fiscalDateEnding").getD .null),
    ("reported_eps", (earning.get "reportedEPS").getD .null),
    ("reported_date", (earning.get "reportedDate").getD .null),
    ("estimated_eps", (earning.get "estimatedEPS").getD .null),
    ("surprise", (earning.get "surprise").getD .null),
    ("surprise_percentage", (earning.get "surprisePercentage").getD .null)]

/-- The seven-column schema of `transform_earnings_response` (615–623). -/
def earningsSchema : Schema :=
  [⟨"period_type", "Period Type", "string"⟩,
   ⟨"fiscal_date_ending", "Fiscal Date Ending", "string"⟩,
   ⟨"reported_eps", "Reported EPS", "number"⟩,
   ⟨"reported_date", "Reported Date", "string"⟩,
   ⟨"estimated_eps", "Estimated EPS", "number"⟩,
   ⟨"surprise", "Surprise", "number"⟩,
   ⟨"surprise_percentage", "Surprise %", "number"⟩]

/-- `transform_earnings_response` (576–626). -/
def transform_earnings_response (response : Json) :
    Except Error (Json × Option Json × Schema) :=
  .ok (.arr (sortBy (rowLe "fiscal_date_ending")
        (arrayRows (response.get "annualEarnings") earningsAnnualRow ++
         arrayRows (response.get "quarterlyEarnings") earningsQuarterlyRow)),
       symbolMetadata response, earningsSchema)

/-- One row of `transform_earnings_estimates_response` (638–649): the ten
fields copied under their own names, `null` when absent. -/
def estimateRow (estimate : Json) : Json :=
  .obj [
    ("date", (estimate.get "date").getD .null),
    ("horizon", (estimate.get "horizon").getD .null),
    ("eps_estimate_average", (estimate.get "eps_estimate_average").getD .null),
    ("eps_estimate_high", (estimate.get "eps_estimate_high").getD .null),
    ("eps_estimate_low", (estimate.get "eps_estimate_low").getD .null),
    ("eps_estimate_analyst_count", (estimate.get "eps_estimate_analyst_count").getD .null),
    ("revenue_estimate_average", (estimate.get "revenue_estimate_average").getD .null),
    ("revenue_estimate_high", (estimate.get "revenue_estimate_high").getD .null),
    ("revenue_estimate_low", (estimate.get "revenue_estimate_low").getD .null),
    ("revenue_estimate_analyst_count", (estimate.get "revenue_estimate_analyst_count").getD .null)]

/-- The ten-column schema of `transform_earnings_estimates_response`. -/
def estimatesSchema : Schema :=
  [⟨"date", "Date", "string"⟩,
   ⟨"horizon", "Horizon", "string"⟩,
   ⟨"eps_estimate_average", "EPS Estimate (Avg)", "number"⟩,
   ⟨"eps_estimate_high", "EPS Estimate (High)", "number"⟩,
   ⟨"eps_estimate_low", "EPS Estimate (Low)", "number"⟩,
   ⟨"eps_estimate_analyst_count", "EPS Analyst Count", "number"⟩,
   ⟨"revenue_estimate_average", "Revenue Estimate (Avg)", "number"⟩,
   ⟨"revenue_estimate_high", "Revenue Estimate (High)", "number"⟩,
   ⟨"revenue_estimate_low", "Revenue Estimate (Low)", "number"⟩,
   ⟨"revenue_estimate_analyst_count", "Revenue Analyst Count", "number"⟩]

/-- `transform_earnings_estimates_response` (629–674). -/
def transform_earnings_estimates_response (response : Json) :
    Except Error (Json × Option Json × Schema) :=
  .ok (.arr (sortBy (rowLe "date") (arrayRows (response.get "estimates") estimateRow)),
       symbolMetadata response, estimatesSchema)

/-- One row of `transform_income_statement_response` (686–698, 705–717). -/
def incomeRow (periodType : String) (report : Json) : Json :=
  .obj [
    ("period_type", .str periodType),
    ("fiscal_date_ending", (report.get "fiscalDateEnding").getD .null),
    ("total_revenue", (report.get "totalRevenue").getD .null),
    ("cost_of_revenue", (report.get "costOfRevenue").getD .null),
    ("gross_profit", (report.get "grossProfit").getD .null),
    ("operating_income", (report.get "operatingIncome").getD .null),
    ("net_income", (report.get "netIncome").getD .null),
    ("ebitda", (report.get "ebitda").getD .null),
    ("ebit", (report.get "ebit").getD .null),
    ("income_before_tax", (report.get "incomeBeforeTax").getD .null),
    ("income_tax_expense", (report.get "incomeTaxExpense").getD .null)]

/-- The schema of `transform_income_statement_response` (728–740). -/
def incomeSchema : Schema :=
  [⟨"period_type", "Period Type", "string"⟩,
   ⟨"fiscal_date_ending", "Fiscal Date Ending", "string"⟩,
   ⟨"total_revenue", "Total Revenue", "number"⟩,
   ⟨"cost_of_revenue", "Cost of Revenue", "number"⟩,
   ⟨"gross_profit", "Gross Profit", "number"⟩,
   ⟨"operating_income", "Operating Income", "number"⟩,
   ⟨"net_income", "Net Income", "number"⟩,
   ⟨"ebitda", "EBITDA", "number"⟩,
   ⟨"ebit", "EBIT", "number"⟩,
   ⟨"income_before_tax", "Income Before Tax", "number"⟩,
   ⟨"income_tax_expense", "Income Tax Expense", "number"⟩]

/-- One row of `transform_balance_sheet_response` (754–766, 772–784). -/
def balanceRow (periodType : String) (report : Json) : Json :=
  .obj [
    ("period_type", .str periodType),
    ("fiscal_date_ending", (report.get "fiscalDateEnding").getD .null),
    ("total_assets", (report.get "totalAssets").getD .null),
    ("total_current_assets", (report.get "totalCurrentAssets").getD .null),
    ("cash_and_cash_equivalents", (report.get "cashAndCashEquivalentsAtCarryingValue").getD .null),
    ("total_liabilities", (report.get "totalLiabilities").getD .null),
    ("total_current_liabilities", (report.get "totalCurrentLiabilities").getD .null),
    ("total_shareholder_equity", (report.get "totalShareholderEquity").getD .null),
    ("retained_earnings", (report.get "retainedEarnings").getD .null),
    ("common_stock", (report.get "commonStock").getD .null)]

/-- The schema of `transform_balance_sheet_response` (795–806). -/
def balanceSchema : Schema :=
  [⟨"period_type", "Period Type", "string"⟩,
   ⟨"fiscal_date_ending", "Fiscal Date Ending", "string"⟩,
   ⟨"total_assets", "Total Assets", "number"⟩,
   ⟨"total_current_assets", "Total Current Assets", "number"⟩,
   ⟨"cash_and_cash_equivalents", "Cash & Cash Equivalents", "number"⟩,
   ⟨"total_liabilities", "Total Liabilities", "number"⟩,
   ⟨"total_current_liabilities", "Total Current Liabilities", "number"⟩,
   ⟨"total_shareholder_equity", "Total Shareholder Equity", "number"⟩,
   ⟨"retained_earnings", "Retained Earnings", "number"⟩,
   ⟨"common_stock", "Common Stock", "number"⟩]

/-- One row of `transform_cash_flow_response` (820–836, 842–858). -/
def cashFlowRow (periodType : String) (report : Json) : Json :=
  .obj [
    ("period_type", .str periodType),
    ("fiscal_date_ending", (report.get "fiscalDateEnding").getD .null),
    ("operating_cashflow", (report.get "operatingCashflow").getD .null),
    ("payments_for_operating_activities", (report.get "paymentsForOperatingActivities").getD .null),
    ("proceeds_from_operating_activities", (report.get "proceedsFromOperatingActivities").getD .null),
    ("change_in_operating_liabilities", (report.get "changeInOperatingLiabilities").getD .null),
    ("change_in_operating_assets", (report.get "changeInOperatingAssets").getD .null),
    ("depreciation_depletion_and_amortization", (report.get "depreciationDepletionAndAmortization").getD .null),
    ("capital_expenditures", (report.get "capitalExpenditures").getD .null),
    ("change_in_receivables", (report.get "changeInReceivables").getD .null),
    ("change_in_inventory", (report.get "changeInInventory").getD .null),
    ("profit_loss", (report.get "profitLoss").getD .null),
    ("cashflow_from_investment", (report.get "cashflowFromInvestment").getD .null),
    ("cashflow_from_financing", (report.get "cashflowFromFinancing").getD .null)]

/-- The schema of `transform_cash_flow_response` (869–884). -/
def cashFlowSchema : Schema :=
  [⟨"period_type", "Period Type", "string"⟩,
   ⟨"fiscal_date_ending", "Fiscal Date Ending", "string"⟩,
   ⟨"operating_cashflow", "Operating Cash Flow", "number"⟩,
   ⟨"payments_for_operating_activities", "Payments for Operating Activities", "number"⟩,
   ⟨"proceeds_from_operating_activities", "Proceeds from Operating Activities", "number"⟩,
   ⟨"change_in_operating_liabilities", "Change in Operating Liabilities", "number"⟩,
   ⟨"change_in_operating_assets", "Change in Operating Assets", "number"⟩,
   ⟨"depreciation_depletion_and_amortization", "Depreciation & Amortization", "number"⟩,
   ⟨"capital_expenditures", "Capital Expenditures", "number"⟩,
   ⟨"change_in_receivables", "Change in Receivables", "number"⟩,
   ⟨"change_in_inventory", "Change in Inventory", "number"⟩,
   ⟨"profit_loss", "Profit/Loss", "number"⟩,
   ⟨"cashflow_from_investment", "Cash Flow from Investment", "number"⟩,
   ⟨"cashflow_from_financing", "Cash Flow from Financing", "number"⟩]

/-- Common body of the three report transforms (income statement, balance
sheet, cash flow), which `tool_use.rs` repeats with different field lists:
annual rows, then quarterly rows, merged and sorted by
`fiscal_date_ending` descending; metadata from `symbol`. -/
def transformReports (rowOf : String → Json → Json) (schema : Schema) (response : Json) :
    Except Error (Json × Option Json × Schema) :=
  .ok (.arr (sortBy (rowLe "fiscal_date_ending")
        (arrayRows (response.get "annualReports") (rowOf "annual") ++
         arrayRows (response.get "quarterlyReports") (rowOf "quarterly"))),
       symbolMetadata response, schema)

/-- `transform_income_statement_response` (677–743). -/
def transform_income_statement_response (response : Json) :
    Except Error (Json × Option Json × Schema) :=
  transformReports incomeRow incomeSchema response

/-- `transform_balance_sheet_response` (746–809). -/
def transform_balance_sheet_response (response : Json) :
    Except Error (Json × Option Json × Schema) :=
  transformReports balanceRow balanceSchema response

/-- `transform_cash_flow_response` (812–887). -/
def transform_cash_flow_response (response : Json) :
    Except Error (Json × Option Json × Schema) :=
  transformReports cashFlowRow cashFlowSchema response

/-- The parameter JSON-schema fragment `{"type": "string", "description": d}`. -/
def strParam (d : String) : Json :=
  .obj [("type", .str "string"), ("description", .str d)]

/-- `list_tools` (39–217): the static catalog of the ten tool descriptors,
in declared order, each with its parameter JSON-schema. -/
def list_tools : List ToolInfo :=
  [⟨"time_series_intraday", "Intraday Time Series",
    "Get intraday time series data with specified intervals",
    .obj [("type", .str "object"),
          ("properties", .obj [
            ("symbol", strParam "Stock symbol (e.g., 'AAPL')"),
            ("interval", .obj [
              ("type", .str "string"),
              ("enum", .arr [.str "1min", .str "5min", .str "15min", .str "30min", .str "60min"]),
              ("description", .str "Time interval between data points")]),
            ("outputsize", .obj [
              ("type", .str "string"),
              ("enum", .arr [.str "compact", .str "full"]),
              ("default", .str "compact"),
              ("description", .str "Compact returns last 100 data points, full returns all")])]),
          ("required", .arr [.str "symbol", .str "interval"])]⟩,
   ⟨"time_series_daily", "Daily Time Series",
    "Get daily time series data (open, high, low, close, volume)",
    .obj [("type", .str "object"),
          ("properties", .obj [
            ("symbol", strParam "Stock symbol"),
            ("outputsize", .obj [
              ("type", .str "string"),
              ("enum", .arr [.str "compact", .str "full"]),
              ("default", .str "compact")])]),
          ("required", .arr [.str "symbol"])]⟩,
   ⟨"time_series_weekly", "Weekly Time Series",
    "Get weekly time series data",
    .obj [("type", .str "object"),
          ("properties", .obj [("symbol", strParam "Stock symbol")]),
          ("required", .arr [.str "symbol"])]⟩,
   ⟨"time_series_monthly", "Monthly Time Series",
    "Get monthly time series data",
    .obj [("type", .str "object"),
          ("properties", .obj [("symbol", strParam "Stock symbol")]),
          ("required", .arr [.str "symbol"])]⟩,
   ⟨"company_overview", "Company Overview",
    "Get comprehensive company information including financials, ratios, and key metrics",
    .obj [("type", .str "object"),
          ("properties", .obj [("symbol", strParam "Stock symbol")]),
          ("required", .arr [.str "symbol"])]⟩,
   ⟨"earnings", "Earnings",
    "Get quarterly and annual earnings data",
    .obj [("type", .str "object"),
          ("properties", .obj [("symbol", strParam "Stock symbol")]),
          ("required", .arr [.str "symbol"])]⟩,
   ⟨"earnings_estimates", "Earnings Estimates",
    "Get analysts' earnings estimates and consensus data",
    .obj [("type", .str "object"),
          ("properties", .obj [
            ("symbol", strParam "Stock symbol"),
            ("horizon", .obj [
              ("type", .str "string"),
              ("enum", .arr [.str "3month", .str "6month", .str "12month", .str "all"]),
              ("default", .str "all"),
              ("description", .str "Time horizon for estimates")])]),
          ("required", .arr [.str "symbol"])]⟩,
   ⟨"income_statement", "Income Statement",
    "Get annual and quarterly income statements",
    .obj [("type", .str "object"),
          ("properties", .obj [("symbol", strParam "Stock symbol")]),
          ("required", .arr [.str "symbol"])]⟩,
   ⟨"balance_sheet", "Balance Sheet",
    "Get annual and quarterly balance sheet data",
    .obj [("type", .str "object"),
          ("properties", .obj [("symbol", strParam "Stock symbol")]),
          ("required", .arr [.str "symbol"])]⟩,
   ⟨"cash_flow", "Cash Flow Statement",
    "Get annual and quarterly cash flow data",
    .obj [("type", .str "object"),
          ("properties", .obj [("symbol", strParam "Stock symbol")]),
          ("required", .arr [.str "symbol"])]⟩]

/-- `get_tool_details` (34–36): first catalog descriptor whose id matches. -/
def get_tool_details (tool_id : String) : Option ToolInfo :=
  list_tools.find? (fun t => t.id == tool_id)

/-- `request::common::Interval`. -/
inductive Interval where
  | oneMin | fiveMin | fifteenMin | thirtyMin | sixtyMin
deriving DecidableEq

/-- `request::common::OutputSize`. -/
inductive OutputSize where
  | compact | full
deriving DecidableEq

/-- The upstream endpoint call `call_tool` issues: which REST query builder
is invoked, with which validated parameters. -/
inductive EndpointQuery where
  | intraday (symbol : String) (interval : Interval) (outputsize : Option OutputSize)
  | daily (symbol : String) (outputsize : Option OutputSize)
  | weekly (symbol : String)
  | monthly (symbol : String)
  | companyOverview (symbol : String)
  | earnings (symbol : String)
  | earningsEstimates (symbol : String) (horizon : Option String)
  | incomeStatement (symbol : String)
  | balanceSheet (symbol : String)
  | cashFlow (symbol : String)

/-- The Transport collaborator: one endpoint call to a parsed-JSON response.
It models `query.get().await` followed by `serde_json::from_str`; an
upstream or parse failure is the transport's error. `call_tool` is
parameterized over it, so a result that is the same for every transport is
produced without any network request. -/
abbrev Transport := EndpointQuery → Except Error Json

/-- The interval token match of the intraday branch (913–920). -/
def parseInterval (interval : String) : Except Error Interval :=
  if interval = "1min" then .ok .oneMin
  else if interval = "5min" then .ok .fiveMin
  else if interval = "15min" then .ok .fifteenMin
  else if interval = "30min" then .ok .thirtyMin
  else if interval = "60min" then .ok .sixtyMin
  else .error (.custom ("Invalid interval: " ++ interval))

/-- The outputsize handling of the intraday and daily branches (924–931,
947–954): validated only when present AND a string; a non-string value is
ignored (`params.get("outputsize").and_then(as_str)` yields `None`). -/
def parseOutputsize (params : Json) : Except Error (Option OutputSize) :=
  match (params.get "outputsize").bind Json.asStr with
  | some os =>
      if os = "compact" then .ok (some .compact)
      else if os = "full" then .ok (some .full)
      else .error (.custom ("Invalid outputsize: " ++ os))
  | none => .ok none

/-- Wrapping a transform result as `ToolCallResult::DataFrame`. -/
def finish (r : Except Error (Json × Option Json × Schema)) :
    Except Error ToolCallResult :=
  match r with
  | .ok (data, metadata, schema) => .ok (.dataFrame data schema metadata)
  | .error e => .error e

/-- Issue the endpoint call and transform the parsed response: the common
tail `let response = query.get().await?; serde_json::from_str(...)?;
transform(...)?; Ok(DataFrame { ... })` of every `call_tool` branch. -/
def fetchAndTransform (transport : Transport) (q : EndpointQuery)
    (transform : Json → Except Error (Json × Option Json × Schema)) :
    Except Error ToolCallResult :=
  match transport q with
  | .error e => .error e
  | .ok responseJson => finish (transform responseJson)

/-- The `"time_series_intraday"` branch of `call_tool` (902–938): required
`symbol` and `interval` (else `Custom "Missing '…' parameter"`), interval
token validation, optional outputsize validation, then the call. -/
def callIntraday (transport : Transport) (params : Json) : Except Error ToolCallResult :=
  match (params.get "symbol").bind Json.asStr with
  | none => .error (.custom "Missing 'symbol' parameter")
  | some symbol =>
    match (params.get "interval").bind Json.asStr with
    | none => .error (.custom "Missing 'interval' parameter")
    | some interval =>
      match parseInterval interval with
      | .error e => .error e
      | .ok intervalEnum =>
        match parseOutputsize params with
        | .error e => .error e
        | .ok outputsize =>
          fetchAndTransform transport (.intraday symbol intervalEnum outputsize)
            (fun r => transform_intraday_response r interval)

/-- The `"time_series_daily"` branch of `call_tool` (939–961). -/
def callDaily (transport : Transport) (params : Json) : Except Error ToolCallResult :=
  match (params.get "symbol").bind Json.asStr with
  | none => .error (.custom "Missing 'symbol' parameter")
  | some symbol =>
    match parseOutputsize params with
    | .error e => .error e
    | .ok outputsize =>
      fetchAndTransform transport (.daily symbol outputsize) transform_daily_response

/-- The `"time_series_weekly"` branch of `call_tool` (962–974). -/
def callWeekly (transport : Transport) (params : Json) : Except Error ToolCallResult :=
  match (params.get "symbol").bind Json.asStr with
  | none => .error (.custom "Missing 'symbol' parameter")
  | some symbol => fetchAndTransform transport (.weekly symbol) transform_weekly_response

/-- The `"time_series_monthly"` branch of `call_tool` (975–987). -/
def callMonthly (transport : Transport) (params : Json) : Except Error ToolCallResult :=
  match (params.get "symbol").bind Json.asStr with
  | none => .error (.custom "Missing 'symbol' parameter")
  | some symbol => fetchAndTransform transport (.monthly symbol) transform_monthly_response

/-- The `"company_overview"` branch of `call_tool` (990–1002). -/
def callCompanyOverview (transport : Transport) (params : Json) : Except Error ToolCallResult :=
  match (params.get "symbol").bind Json.asStr with
  | none => .error (.custom "Missing 'symbol' parameter")
  | some symbol =>
      fetchAndTransform transport (.companyOverview symbol) transform_company_overview_response

/-- The `"earnings"` branch of `call_tool` (1003–1015). -/
def callEarnings (transport : Transport) (params : Json) : Except Error ToolCallResult :=
  match (params.get "symbol").bind Json.asStr with
  | none => .error (.custom "Missing 'symbol' parameter")
  | some symbol => fetchAndTransform transport (.earnings symbol) transform_earnings_response

/-- The `"earnings_estimates"` branch of `call_tool` (1016–1033): the
optional `horizon` is passed through uninterpreted when a string. -/
def callEarningsEstimates (transport : Transport) (params : Json) : Except Error ToolCallResult :=
  match (params.get "symbol").bind Json.asStr with
  | none => .error (.custom "Missing 'symbol' parameter")
  | some symbol =>
      fetchAndTransform transport
        (.earningsEstimates symbol ((params.get "horizon").bind Json.asStr))
        transform_earnings_estimates_response

/-- The `"income_statement"` branch of `call_tool` (1034–1046). -/
def callIncomeStatement (transport : Transport) (params : Json) : Except Error ToolCallResult :=
  match (params.get "symbol").bind Json.asStr with
  | none => .error (.custom "Missing 'symbol' parameter")
  | some symbol =>
      fetchAndTransform transport (.incomeStatement symbol) transform_income_statement_response

/-- The `"balance_sheet"` branch of `call_tool` (1047–1059). -/
def callBalanceSheet (transport : Transport) (params : Json) : Except Error ToolCallResult :=
  match (params.get "symbol").bind Json.asStr with
  | none => .error (.custom "Missing 'symbol' parameter")
  | some symbol =>
      fetchAndTransform transport (.balanceSheet symbol) transform_balance_sheet_response

/-- The `"cash_flow"` branch of `call_tool` (1060–1072). -/
def callCashFlow (transport : Transport) (params : Json) : Except Error ToolCallResult :=
  match (params.get "symbol").bind Json.asStr with
  | none => .error (.custom "Missing 'symbol' parameter")
  | some symbol => fetchAndTransform transport (.cashFlow symbol) transform_cash_flow_response

/-- `call_tool` (890–1076): extract `tool` (string, else
`Custom "Missing 'tool' field"`), then `params` (else
`Custom "Missing 'params' field"`), then dispatch on the tool id by exact
string equality; an id outside the ten falls to
`Custom "Unknown tool: {tool}"`. -/
def call_tool (transport : Transport) (request : Json) : Except Error ToolCallResult :=
  match (request.get "tool").bind Json.asStr with
  | none => .error (.custom "Missing 'tool' field")
  | some tool =>
    match request.get "params" with
    | none => .error (.custom "Missing 'params' field")
    | some params =>
      if tool = "time_series_intraday" then callIntraday transport params
      else if tool = "time_series_daily" then callDaily transport params
      else if tool = "time_series_weekly" then callWeekly transport params
      else if tool = "time_series_monthly" then callMonthly transport params
      else if tool = "company_overview" then callCompanyOverview transport params
      else if tool = "earnings" then callEarnings transport params
      else if tool = "earnings_estimates" then callEarningsEstimates transport params
      else if tool = "income_statement" then callIncomeStatement transport params
      else if tool = "balance_sheet" then callBalanceSheet transport params
      else if tool = "cash_flow" then callCashFlow transport params
      else .error (.custom ("Unknown tool: " ++ tool))

/-- The number of rows an optional vendor array contributes: its length when
it is an array, `0` when absent or not an array. -/
def arrLenOpt (v : Option Json) : Nat :=
  match v.bind Json.asArray with
  | some items => items.length
  | none => 0

/-- The success shape of a time-series transform with block key `blockKey`
and date column `dateCol`: the named block is an object, the data is a row
array, and every row comes from an object-valued entry of the block and
holds exactly the six schema keys in declared order — the entry's date key
as a string under `dateCol`, then the five OHLCV fields, explicitly `null`
when the source entry omits one. -/
def tsRowsShape (blockKey dateCol : String) (response data : Json) : Prop :=
  ∃ entries rows,
    (response.get blockKey).bind Json.asObject = some entries ∧
    data = .arr rows ∧
    ∀ r ∈ rows, ∃ e ∈ entries, ∃ vo, e.2 = Json.obj vo ∧
      r = Json.obj [
        (dateCol, .str e.1),
        ("open", (mapGet vo "1. open").getD .null),
        ("high", (mapGet vo "2. high").getD .null),
        ("low", (mapGet vo "3. low").getD .null),
        ("close", (mapGet vo "4. close").getD .null),
        ("volume", (mapGet vo "5. volume").getD .null)]

/-- The ordering guarantee of a time-series transform: the output data is a
row array that is a permutation of the built rows (`tsEntryRows`, the
encounter order of the block), pairwise non-increasing in the date column
under the lexicographic string order, and — stability — rows sharing one
date-key value appear in exactly their encounter order. -/
def tsSortedShape (blockKey dateCol : String) (response data : Json) : Prop :=
  ∃ entries rows,
    (response.get blockKey).bind Json.asObject = some entries ∧
    data = .arr rows ∧
    rows.Pairwise (fun a b => strLe (rowKeyStr dateCol b) (rowKeyStr dateCol a) = true) ∧
    (∀ v, rows.filter (fun r => rowKeyStr dateCol r == v) =
      (tsEntryRows dateCol entries).filter (fun r => rowKeyStr dateCol r == v)) ∧
    rows.Perm (tsEntryRows dateCol entries)

/-- The row-count guarantee of a time-series transform: exactly one output
row per object-valued entry of the named block (non-object entries are
skipped), each row carrying its entry's key under the date column. -/
def tsCountShape (blockKey dateCol : String) (response data : Json) : Prop :=
  ∃ entries rows,
    (response.get blockKey).bind Json.asObject = some entries ∧
    data = .arr rows ∧
    rows.length = entries.countP (fun e => e.2.asObject.isSome) ∧
    ∀ r ∈ rows, ∃ e ∈ entries, e.2.asObject.isSome ∧ r.get dateCol = some (.str e.1)

/-- A transport that never produces a vendor response: every endpoint call
reports the fixed error `"network reached"`. Used to witness that a given
dispatch outcome was produced before (or without) any network activity. -/
def netTransport : Transport := fun _ => .error (.custom "network reached")

/-- A second transport, distinguishable from `netTransport`: a dispatch
outcome that differs between the two proves the network was consulted. -/
def otherTransport : Transport := fun _ => .error (.custom "other response")

/-- A daily response with two entries, one full and one with only the open
field, for concrete evaluation of the daily transform. -/
def sampleDaily : Json :=
  .obj [("Meta Data", .obj [("2. Symbol", .str "IBM")]),
        ("Time Series (Daily)", .obj [
          ("2024-01-02", .obj [("1. open", .str "1.0")]),
          ("2024-01-03", .obj [
            ("1. open", .str "1.5"), ("2. high", .str "2.0"), ("3. low", .str "0.5"),
            ("4. close", .str "1.8"), ("5. volume", .str "100")])])]

/-- The spec's §8 intraday scenario: a 5min response with two timestamps in
ascending encounter order. -/
def sampleIntraday : Json :=
  .obj [("Meta Data", .obj [("1. Information", .str "Intraday (5min) data")]),
        ("Time Series (5min)", .obj [
          ("2024-01-02 09:25:00", .obj [("1. open", .str "0.9")]),
          ("2024-01-02 09:30:00", .obj [
            ("1. open", .str "1.0"), ("2. high", .str "2.0"), ("3. low", .str "0.5"),
            ("4. close", .str "1.5"), ("5. volume", .str "100")])])]

/-- A daily response whose block holds one entry with a non-object value. -/
def badDaily : Json :=
  .obj [("Time Series (Daily)", .obj [("2024-01-01", .str "oops")])]

/-- A daily response whose block holds one non-object entry and one object
entry. -/
def mixedDaily : Json :=
  .obj [("Time Series (Daily)", .obj [
          ("2024-01-01", .str "oops"),
          ("2024-01-02", .obj [("1. open", .str "1.0")])])]

/-- An earnings response carrying only an annual earning. -/
def annualOnlyEarnings : Json :=
  .obj [("symbol", .str "A"),
        ("annualEarnings", .arr [
          .obj [("fiscalDateEnding", .str "2023-12-31"), ("reportedEPS", .str "1.0")]])]

/-- An earnings response with one annual and one quarterly earning. -/
def mixedEarnings : Json :=
  .obj [("symbol", .str "A"),
        ("annualEarnings", .arr [.obj [("fiscalDateEnding", .str "2023-12-31")]]),
        ("quarterlyEarnings", .arr [.obj [("fiscalDateEnding", .str "2023-09-30")]])]

/-- An income-statement response with one annual and one quarterly report. -/
def sampleIncome : Json :=
  .obj [("symbol", .str "A"),
        ("annualReports", .arr [
          .obj [("fiscalDateEnding", .str "2023-12-31"), ("totalRevenue", .str "10")]]),
        ("quarterlyReports", .arr [.obj [("fiscalDateEnding", .str "2024-03-31")]])]

/-- The spec's §8 scenario input for earnings estimates: a symbol and an
empty estimates array. -/
def emptyEstimates : Json :=
  .obj [("symbol", .str "X"), ("estimates", .arr [])]

/-- An envelope with an unknown tool id and no `params` field. -/
def unknownToolRequest : Json := .obj [("tool", .str "foo")]

/-- A daily envelope whose `outputsize` is the number `5`, not a string. -/
def nonStringOutputsizeRequest : Json :=
  .obj [("tool", .str "time_series_daily"),
        ("params", .obj [("symbol", .str "IBM"), ("outputsize", .num 5)])]

/-- A daily envelope with an invalid string `outputsize` and no symbol. -/
def noSymbolOutputsizeRequest : Json :=
  .obj [("tool", .str "time_series_daily"),
        ("params", .obj [("outputsize", .str "bogus")])]

/-! Helper lemmas: the stable sort, the string order, and small inversion
principles for the JSON accessors. -/

theorem Json.asObject_eq_some {j : Json} {vo : List (String × Json)} :
    j.asObject = some vo ↔ j = .obj vo := by
  cases j <;> simp [Json.asObject]

theorem Json.asArray_eq_some {j : Json} {xs : List Json} :
    j.asArray = some xs ↔ j = .arr xs := by
  cases j <;> simp [Json.asArray]

theorem Json.asStr_eq_some {j : Json} {s : String} :
    j.asStr = some s ↔ j = .str s := by
  cases j <;> simp [Json.asStr]

theorem mem_insertSorted {α : Type} (le : α → α → Bool) (x : α) (M : List α) (a : α) :
    a ∈ insertSorted le x M ↔ a = x ∨ a ∈ M := by
  induction M with
  | nil => simp [insertSorted]
  | cons y ys ih =>
    by_cases h : le x y = true
    · simp [insertSorted, h]
    · simp [insertSorted, h, ih]
      tauto

theorem insertSorted_perm {α : Type} (le : α → α → Bool) (x : α) (M : List α) :
    (insertSorted le x M).Perm (x :: M) := by
  induction M with
  | nil => exact List.Perm.refl _
  | cons y ys ih =>
    by_cases h : le x y = true
    · simp [insertSorted, h]
    · simp only [insertSorted, h, if_neg, Bool.not_eq_true, ite_false]
      exact (ih.cons y).trans (List.Perm.swap x y ys)

theorem sortBy_perm {α : Type} (le : α → α → Bool) (l : List α) :
    (sortBy le l).Perm l := by
  induction l with
  | nil => exact List.Perm.refl _
  | cons x xs ih => exact (insertSorted_perm le x (sortBy le xs)).trans (ih.cons x)

theorem sortBy_length {α : Type} (le : α → α → Bool) (l : List α) :
    (sortBy le l).length = l.length :=
  (sortBy_perm le l).length_eq

theorem pairwise_insertSorted {α : Type} {le : α → α → Bool}
    (htrans : ∀ a b c, le a b = true → le b c = true → le a c = true)
    (htotal : ∀ a b, le a b = true ∨ le b a = true) (x : α) {M : List α}
    (hM : M.Pairwise (fun a b => le a b = true)) :
    (insertSorted le x M).Pairwise (fun a b => le a b = true) := by
  induction M with
  | nil => simp [insertSorted]
  | cons y ys ih =>
    rcases List.pairwise_cons.mp hM with ⟨hy, hys⟩
    by_cases h : le x y = true
    · simp only [insertSorted, h, ite_true]
      refine List.pairwise_cons.mpr ⟨?_, hM⟩
      intro b hb
      rcases List.mem_cons.mp hb with rfl | hb
      · exact h
      · exact htrans x y b h (hy b hb)
    · have hyx : le y x = true := (htotal x y).resolve_left h
      simp only [insertSorted, h, ite_false]
      refine List.pairwise_cons.mpr ⟨?_, ih hys⟩
      intro b hb
      rcases (mem_insertSorted le x ys b).mp hb with rfl | hb
      · exact hyx
      · exact hy b hb

theorem pairwise_sortBy {α : Type} {le : α → α → Bool}
    (htrans : ∀ a b c, le a b = true → le b c = true → le a c = true)
    (htotal : ∀ a b, le a b = true ∨ le b a = true) (l : List α) :
    (sortBy le l).Pairwise (fun a b => le a b = true) := by
  induction l with
  | nil => simp [sortBy]
  | cons x xs ih => exact pairwise_insertSorted htrans htotal x ih

theorem filter_insertSorted_pos {α : Type} {le : α → α → Bool} {p : α → Bool} {x : α}
    (hx : p x = true) (h : ∀ b, p b = true → le x b = true) (M : List α) :
    (insertSorted le x M).filter p = x :: M.filter p := by
  induction M with
  | nil => simp [insertSorted, hx]
  | cons y ys ih =>
    by_cases hxy : le x y = true
    · simp [insertSorted, hxy, hx]
    · have hpy : p y = false := by
        cases hpy : p y
        · rfl
        · exact absurd (h y hpy) hxy
      simp [insertSorted, hxy, hpy, ih]

theorem filter_insertSorted_neg {α : Type} {le : α → α → Bool} {p : α → Bool} {x : α}
    (hx : p x = false) (M : List α) :
    (insertSorted le x M).filter p = M.filter p := by
  induction M with
  | nil => simp [insertSorted, hx]
  | cons y ys ih =>
    by_cases hxy : le x y = true
    · simp [insertSorted, hxy, hx]
    · cases hpy : p y <;> simp [insertSorted, hxy, hpy, hx, ih]

/-- Stability of the sort: elements singled out by a predicate on which the
comparator is reflexive (e.g. all rows with one given sort key) come out in
exactly their input order. -/
theorem filter_sortBy {α : Type} {le : α → α → Bool} {p : α → Bool}
    (hcls : ∀ a b, p a = true → p b = true → le a b = true) (l : List α) :
    (sortBy le l).filter p = l.filter p := by
  induction l with
  | nil => rfl
  | cons x xs ih =>
    cases hx : p x
    · rw [sortBy, filter_insertSorted_neg hx, ih]
      simp [hx]
    · rw [sortBy, filter_insertSorted_pos hx (fun b hb => hcls x b hx hb), ih]
      simp [hx]

theorem charsLe_refl (l : List Char) : charsLe l l = true := by
  induction l with
  | nil => rfl
  | cons c cs ih => simp [charsLe, ih]

theorem charsLe_trans :
    ∀ a b c : List Char, charsLe a b = true → charsLe b c = true → charsLe a c = true := by
  intro a
  induction a with
  | nil => intro b c _ _; rfl
  | cons x xs ih =>
    intro b c hab hbc
    cases b with
    | nil => simp [charsLe] at hab
    | cons y ys =>
      cases c with
      | nil => simp [charsLe] at hbc
      | cons z zs =>
        simp only [charsLe] at hab hbc ⊢
        by_cases h1 : x.toNat < y.toNat
        · by_cases h2 : y.toNat < z.toNat
          · have hxz : x.toNat < z.toNat := by omega
            simp [hxz]
          · simp only [h2, ite_false] at hbc
            by_cases h3 : z.toNat < y.toNat
            · simp [h3] at hbc
            · have hxz : x.toNat < z.toNat := by omega
              simp [hxz]
        · simp only [h1, ite_false] at hab
          by_cases h4 : y.toNat < x.toNat
          · simp [h4] at hab
          · by_cases h2 : y.toNat < z.toNat
            · have hxz : x.toNat < z.toNat := by omega
              simp [hxz]
            · simp only [h2, ite_false] at hbc
              by_cases h3 : z.toNat < y.toNat
              · simp [h3] at hbc
              · have hxz : ¬x.toNat < z.toNat := by omega
                have hzx : ¬z.toNat < x.toNat := by omega
                simp only [h4, ite_false] at hab
                simp only [h3, ite_false] at hbc
                simp [hxz, hzx]
                exact ih ys zs hab hbc

theorem charsLe_total (a b : List Char) : charsLe a b = true ∨ charsLe b a = true := by
  induction a generalizing b with
  | nil => left; rfl
  | cons x xs ih =>
    cases b with
    | nil => right; rfl
    | cons y ys =>
      by_cases h1 : x.toNat < y.toNat
      · left; simp [charsLe, h1]
      · by_cases h2 : y.toNat < x.toNat
        · right; simp [charsLe, h2, h1]
        · rcases ih ys with h | h
          · left; simp [charsLe, h1, h2, h]
          · right; simp [charsLe, h1, h2, h]

theorem strLe_refl (s : String) : strLe s s = true := charsLe_refl s.data

theorem strLe_trans {a b c : String} (h1 : strLe a b = true) (h2 : strLe b c = true) :
    strLe a c = true := charsLe_trans a.data b.data c.data h1 h2

theorem strLe_total (a b : String) : strLe a b = true ∨ strLe b a = true :=
  charsLe_total a.data b.data

theorem rowLe_trans (key : String) :
    ∀ a b c, rowLe key a b = true → rowLe key b c = true → rowLe key a c = true :=
  fun _ _ _ h1 h2 => strLe_trans h2 h1

theorem rowLe_total (key : String) :
    ∀ a b, rowLe key a b = true ∨ rowLe key b a = true :=
  fun a b => (strLe_total (rowKeyStr key b) (rowKeyStr key a))

/-- Sorted rows are pairwise non-increasing in the designated key. -/
theorem pairwise_sortRows (key : String) (l : List Json) :
    (sortBy (rowLe key) l).Pairwise (fun a b => strLe (rowKeyStr key b) (rowKeyStr key a) = true) :=
  pairwise_sortBy (rowLe_trans key) (rowLe_total key) l

/-- Stability instantiated at one sort-key value. -/
theorem filter_sortRows (key v : String) (l : List Json) :
    (sortBy (rowLe key) l).filter (fun r => rowKeyStr key r == v) =
      l.filter (fun r => rowKeyStr key r == v) := by
  refine filter_sortBy (fun a b ha hb => ?_) l
  have ha' : rowKeyStr key a = v := by simpa using ha
  have hb' : rowKeyStr key b = v := by simpa using hb
  simp only [rowLe, ha', hb']
  exact strLe_refl v

/-- Inversion of a successful time-series transform. -/
theorem transformTimeSeries_ok {blockKey dateCol dateAlias : String} {response data : Json}
    {md : Option Json} {sch : Schema}
    (h : transformTimeSeries blockKey dateCol dateAlias response = .ok (data, md, sch)) :
    ∃ entries, (response.get blockKey).bind Json.asObject = some entries ∧
      data = .arr (sortBy (rowLe dateCol) (tsEntryRows dateCol entries)) ∧
      md = response.get "Meta Data" ∧ sch = tsSchema dateCol dateAlias := by
  unfold transformTimeSeries at h
  cases hb : (response.get blockKey).bind Json.asObject with
  | none => rw [hb] at h; exact Except.noConfusion h
  | some entries =>
    rw [hb] at h
    simp only [Except.ok.injEq, Prod.mk.injEq] at h
    obtain ⟨h1, h2, h3⟩ := h
    exact ⟨entries, rfl, h1.symm, h2.symm, h3.symm⟩

/-- A failed block lookup is the exact `Custom` error naming the key. -/
theorem transformTimeSeries_missing {blockKey dateCol dateAlias : String} {response : Json}
    (hb : (response.get blockKey).bind Json.asObject = none) :
    transformTimeSeries blockKey dateCol dateAlias response =
      .error (.custom ("No '" ++ blockKey ++ "' data found in response")) := by
  unfold transformTimeSeries
  rw [hb]

/-- Membership in the built time-series rows. -/
theorem mem_tsEntryRows {dateCol : String} {entries : List (String × Json)} {r : Json} :
    r ∈ tsEntryRows dateCol entries ↔
      ∃ e ∈ entries, ∃ vo, e.2 = Json.obj vo ∧ r = tsRow dateCol e.1 vo := by
  simp only [tsEntryRows, List.mem_filterMap, Option.map_eq_some', Json.asObject_eq_some]
  constructor
  · rintro ⟨e, he, vo, hvo, hr⟩
    exact ⟨e, he, vo, hvo, hr.symm⟩
  · rintro ⟨e, he, vo, hvo, hr⟩
    exact ⟨e, he, vo, hvo, hr.symm⟩

/-- One built row per object-valued entry. -/
theorem tsEntryRows_length (dateCol : String) (entries : List (String × Json)) :
    (tsEntryRows dateCol entries).length = entries.countP (fun e => e.2.asObject.isSome) := by
  induction entries with
  | nil => rfl
  | cons e es ih =>
    cases h : e.2.asObject with
    | none =>
      have hcons : tsEntryRows dateCol (e :: es) = tsEntryRows dateCol es := by
        simp [tsEntryRows, List.filterMap_cons, h]
      rw [hcons, ih, List.countP_cons]
      simp [h]
    | some vo =>
      have hcons : tsEntryRows dateCol (e :: es) =
          tsRow dateCol e.1 vo :: tsEntryRows dateCol es := by
        simp [tsEntryRows, List.filterMap_cons, h]
      rw [hcons, List.length_cons, ih, List.countP_cons]
      simp [h]

/-- A time-series row holds its entry's date key under the date column. -/
theorem tsRow_get_dateCol (dateCol date : String) (vo : List (String × Json)) :
    (tsRow dateCol date vo).get dateCol = some (.str date) := by
  simp [tsRow, Json.get, mapGet]

/-- `arrayRows` is a map over the array when present, else empty. -/
theorem arrayRows_eq (v : Option Json) (rowOf : Json → Json) :
    arrayRows v rowOf = ((v.bind Json.asArray).getD []).map rowOf := by
  unfold arrayRows
  cases v.bind Json.asArray <;> simp

/-- `arrayRows` length is the vendor array's contribution. -/
theorem arrayRows_length (v : Option Json) (rowOf : Json → Json) :
    (arrayRows v rowOf).length = arrLenOpt v := by
  unfold arrayRows arrLenOpt
  cases v.bind Json.asArray <;> simp

/-- Schema and row-shape consequence of any successful time-series
transform. -/
theorem tsOk_shape {blockKey dateCol dateAlias : String} {response data : Json}
    {md : Option Json} {sch : Schema}
    (h : transformTimeSeries blockKey dateCol dateAlias response = .ok (data, md, sch)) :
    sch = tsSchema dateCol dateAlias ∧ tsRowsShape blockKey dateCol response data := by
  obtain ⟨entries, hb, hdata, _, hsch⟩ := transformTimeSeries_ok h
  refine ⟨hsch, entries, sortBy (rowLe dateCol) (tsEntryRows dateCol entries), hb, hdata, ?_⟩
  intro r hr
  have hr' : r ∈ tsEntryRows dateCol entries := (sortBy_perm _ _).mem_iff.mp hr
  obtain ⟨e, he, vo, hvo, hrow⟩ := mem_tsEntryRows.mp hr'
  exact ⟨e, he, vo, hvo, hrow⟩

/-- Ordering consequence of any successful time-series transform. -/
theorem tsOk_sorted {blockKey dateCol dateAlias : String} {response data : Json}
    {md : Option Json} {sch : Schema}
    (h : transformTimeSeries blockKey dateCol dateAlias response = .ok (data, md, sch)) :
    tsSortedShape blockKey dateCol response data := by
  obtain ⟨entries, hb, hdata, _, _⟩ := transformTimeSeries_ok h
  exact ⟨entries, sortBy (rowLe dateCol) (tsEntryRows dateCol entries), hb, hdata,
    pairwise_sortRows dateCol _, fun v => filter_sortRows dateCol v _, sortBy_perm _ _⟩

/-- Row-count consequence of any successful time-series transform. -/
theorem tsOk_count {blockKey dateCol dateAlias : String} {response data : Json}
    {md : Option Json} {sch : Schema}
    (h : transformTimeSeries blockKey dateCol dateAlias response = .ok (data, md, sch)) :
    tsCountShape blockKey dateCol response data := by
  obtain ⟨entries, hb, hdata, _, _⟩ := transformTimeSeries_ok h
  refine ⟨entries, sortBy (rowLe dateCol) (tsEntryRows dateCol entries), hb, hdata, ?_, ?_⟩
  · rw [sortBy_length]
    exact tsEntryRows_length dateCol entries
  · intro r hr
    obtain ⟨e, he, vo, hvo, hrow⟩ := mem_tsEntryRows.mp ((sortBy_perm _ _).mem_iff.mp hr)
    refine ⟨e, he, ?_, ?_⟩
    · rw [hvo]; rfl
    · rw [hrow]; exact tsRow_get_dateCol dateCol e.1 vo

/-- C1: for every input JSON on which a time-series transform (intraday,
daily, weekly, monthly) succeeds, the output schema is exactly the six
declared columns in fixed order (the date column tagged `string`, the five
OHLCV columns tagged `number`), and every output row holds exactly those
six keys in that order, with an explicit `null` value for any of the five
OHLCV fields the source entry omits. -/
theorem C1_time_series_schema_and_rows :
    (∀ interval response data md sch,
      transform_intraday_response response interval = .ok (data, md, sch) →
      sch = tsSchema "timestamp" "Timestamp" ∧
      tsRowsShape ("Time Series (" ++ interval ++ ")") "timestamp" response data) ∧
    (∀ response data md sch,
      transform_daily_response response = .ok (data, md, sch) →
      sch = tsSchema "date" "Date" ∧
      tsRowsShape "Time Series (Daily)" "date" response data) ∧
    (∀ response data md sch,
      transform_weekly_response response = .ok (data, md, sch) →
      sch = tsSchema "week_ending" "Week Ending" ∧
      tsRowsShape "Weekly Time Series" "week_ending" response data) ∧
    (∀ response data md sch,
      transform_monthly_response response = .ok (data, md, sch) →
      sch = tsSchema "month" "Month" ∧
      tsRowsShape "Monthly Time Series" "month" response data) :=
  ⟨fun _ _ _ _ _ h => tsOk_shape h, fun _ _ _ _ h => tsOk_shape h,
   fun _ _ _ _ h => tsOk_shape h, fun _ _ _ _ h => tsOk_shape h⟩

/-- Witness for C1: the daily conjunct evaluated on `sampleDaily`, whose
second entry omits high, low, close, volume: the transform succeeds with
the two six-key rows below (nulls filled in) and the daily schema. -/
theorem C1_witness :
    tsSchema "date" "Date" = tsSchema "date" "Date" ∧
    tsRowsShape "Time Series (Daily)" "date" sampleDaily (Json.arr [
      Json.obj [("date", .str "2024-01-03"), ("open", .str "1.5"), ("high", .str "2.0"),
                ("low", .str "0.5"), ("close", .str "1.8"), ("volume", .str "100")],
      Json.obj [("date", .str "2024-01-02"), ("open", .str "1.0"), ("high", Json.null),
                ("low", Json.null), ("close", Json.null), ("volume", Json.null)]]) :=
  C1_time_series_schema_and_rows.2.1 sampleDaily _ _ _ rfl

/-- C2: for every input JSON on which a time-series transform succeeds, the
output rows are sorted by the designated date/time column in non-increasing
lexicographic string order (adjacent pairs included, via pairwise), and rows
with equal sort keys retain their encounter order — the sort is stable. -/
theorem C2_time_series_sorted_stable :
    (∀ interval response data md sch,
      transform_intraday_response response interval = .ok (data, md, sch) →
      tsSortedShape ("Time Series (" ++ interval ++ ")") "timestamp" response data) ∧
    (∀ response data md sch,
      transform_daily_response response = .ok (data, md, sch) →
      tsSortedShape "Time Series (Daily)" "date" response data) ∧
    (∀ response data md sch,
      transform_weekly_response response = .ok (data, md, sch) →
      tsSortedShape "Weekly Time Series" "week_ending" response data) ∧
    (∀ response data md sch,
      transform_monthly_response response = .ok (data, md, sch) →
      tsSortedShape "Monthly Time Series" "month" response data) :=
  ⟨fun _ _ _ _ _ h => tsOk_sorted h, fun _ _ _ _ h => tsOk_sorted h,
   fun _ _ _ _ h => tsOk_sorted h, fun _ _ _ _ h => tsOk_sorted h⟩

/-- Witness for C2: the spec's intraday scenario — two 5min entries in
ascending encounter order come out sorted descending, 09:30 first. -/
theorem C2_witness :
    tsSortedShape "Time Series (5min)" "timestamp" sampleIntraday (Json.arr [
      Json.obj [("timestamp", .str "2024-01-02 09:30:00"), ("open", .str "1.0"),
                ("high", .str "2.0"), ("low", .str "0.5"), ("close", .str "1.5"),
                ("volume", .str "100")],
      Json.obj [("timestamp", .str "2024-01-02 09:25:00"), ("open", .str "0.9"),
                ("high", Json.null), ("low", Json.null), ("close", Json.null),
                ("volume", Json.null)]]) :=
  C2_time_series_sorted_stable.1 "5min" sampleIntraday _ _ _ rfl

/-- C7: for every input JSON lacking its endpoint's required named
top-level block (or where that key maps to a non-object), the time-series
transform returns the `Custom` error whose message names the missing key;
it never panics and never returns a silent empty row set. -/
theorem C7_missing_block_error :
    (∀ interval response,
      (response.get ("Time Series (" ++ interval ++ ")")).bind Json.asObject = none →
      transform_intraday_response response interval =
        .error (.custom ("No '" ++ ("Time Series (" ++ interval ++ ")") ++
          "' data found in response"))) ∧
    (∀ response, (response.get "Time Series (Daily)").bind Json.asObject = none →
      transform_daily_response response =
        .error (.custom "No 'Time Series (Daily)' data found in response")) ∧
    (∀ response, (response.get "Weekly Time Series").bind Json.asObject = none →
      transform_weekly_response response =
        .error (.custom "No 'Weekly Time Series' data found in response")) ∧
    (∀ response, (response.get "Monthly Time Series").bind Json.asObject = none →
      transform_monthly_response response =
        .error (.custom "No 'Monthly Time Series' data found in response")) :=
  ⟨fun _ _ h => transformTimeSeries_missing h, fun _ h => transformTimeSeries_missing h,
   fun _ h => transformTimeSeries_missing h, fun _ h => transformTimeSeries_missing h⟩

/-- Witness for C7: the spec's scenario — a daily input without the
`"Time Series (Daily)"` key errors naming that key. -/
theorem C7_witness :
    transform_daily_response (Json.obj []) =
      .error (.custom "No 'Time Series (Daily)' data found in response") :=
  C7_missing_block_error.2.1 (Json.obj []) rfl

/-- Counterexample to C8 as stated: `badDaily`'s block holds exactly one
entry, but its value is the string `"oops"`, not an object, so the daily
transform succeeds with zero rows — not one row per entry. -/
theorem C8_counterexample :
    transform_daily_response badDaily = .ok (.arr [], none, tsSchema "date" "Date") ∧
    ((badDaily.get "Time Series (Daily)").bind Json.asObject).map List.length = some 1 :=
  ⟨rfl, rfl⟩

/-- C8 (amended): for every time-series input whose named block is present,
the transform emits exactly one output row per entry of that block whose
value is a JSON object (entries with non-object values are skipped), each
row carrying the entry's date/time key under the endpoint's date-column
name. -/
theorem C8_amended_row_count :
    (∀ interval response data md sch,
      transform_intraday_response response interval = .ok (data, md, sch) →
      tsCountShape ("Time Series (" ++ interval ++ ")") "timestamp" response data) ∧
    (∀ response data md sch,
      transform_daily_response response = .ok (data, md, sch) →
      tsCountShape "Time Series (Daily)" "date" response data) ∧
    (∀ response data md sch,
      transform_weekly_response response = .ok (data, md, sch) →
      tsCountShape "Weekly Time Series" "week_ending" response data) ∧
    (∀ response data md sch,
      transform_monthly_response response = .ok (data, md, sch) →
      tsCountShape "Monthly Time Series" "month" response data) :=
  ⟨fun _ _ _ _ _ h => tsOk_count h, fun _ _ _ _ h => tsOk_count h,
   fun _ _ _ _ h => tsOk_count h, fun _ _ _ _ h => tsOk_count h⟩

/-- Witness for C8 (amended): `mixedDaily` holds one non-object entry and
one object entry; the transform emits exactly one row, for the object
entry, with its key under `date`. -/
theorem C8_witness :
    tsCountShape "Time Series (Daily)" "date" mixedDaily (Json.arr [
      Json.obj [("date", .str "2024-01-02"), ("open", .str "1.0"), ("high", Json.null),
                ("low", Json.null), ("close", Json.null), ("volume", Json.null)]]) :=
  C8_amended_row_count.2.1 mixedDaily _ _ _ rfl

/-- Inversion of the (always successful) earnings transform. -/
theorem transform_earnings_ok {response data : Json} {md : Option Json} {sch : Schema}
    (h : transform_earnings_response response = .ok (data, md, sch)) :
    sch = earningsSchema ∧ md = symbolMetadata response ∧
    data = .arr (sortBy (rowLe "fiscal_date_ending")
      (arrayRows (response.get "annualEarnings") earningsAnnualRow ++
       arrayRows (response.get "quarterlyEarnings") earningsQuarterlyRow)) := by
  unfold transform_earnings_response at h
  simp only [Except.ok.injEq, Prod.mk.injEq] at h
  obtain ⟨h1, h2, h3⟩ := h
  exact ⟨h3.symm, h2.symm, h1.symm⟩

/-- Counterexample to C3 as stated: `annualOnlyEarnings` produces one
annual row whose key set is only `period_type`, `fiscal_date_ending`,
`reported_eps`; the quarterly-only key `reported_date` is absent entirely
(`get` is `none`), not an explicit null. -/
theorem C3_counterexample :
    transform_earnings_response annualOnlyEarnings =
      .ok (.arr [Json.obj [("period_type", .str "annual"),
                 ("fiscal_date_ending", .str "2023-12-31"),
                 ("reported_eps", .str "1.0")]],
           some (.obj [("symbol", .str "A")]), earningsSchema) ∧
    (Json.obj [("period_type", .str "annual"), ("fiscal_date_ending", .str "2023-12-31"),
       ("reported_eps", .str "1.0")]).get "reported_date" = none :=
  ⟨rfl, rfl⟩

/-- C3 (amended): every row the earnings transformer produces is either an
annual row holding exactly the three keys `period_type`,
`fiscal_date_ending`, `reported_eps` (the four quarterly-only keys are
omitted, not null), or a quarterly row holding exactly the seven schema
keys; the declared schema is the seven-column earnings schema. -/
theorem C3_amended_earnings_row_shapes :
    ∀ response data md sch, transform_earnings_response response = .ok (data, md, sch) →
      sch = earningsSchema ∧
      ∃ rows, data = .arr rows ∧
        ∀ r ∈ rows,
          (∃ fde eps, r = Json.obj [("period_type", .str "annual"),
             ("fiscal_date_ending", fde), ("reported_eps", eps)]) ∨
          (∃ fde eps rd ee s sp, r = Json.obj [("period_type", .str "quarterly"),
             ("fiscal_date_ending", fde), ("reported_eps", eps), ("reported_date", rd),
             ("estimated_eps", ee), ("surprise", s), ("surprise_percentage", sp)]) := by
  intro response data md sch h
  obtain ⟨hsch, _, hdata⟩ := transform_earnings_ok h
  refine ⟨hsch, _, hdata, ?_⟩
  intro r hr
  rcases List.mem_append.mp ((sortBy_perm _ _).mem_iff.mp hr) with hmem | hmem
  · rw [arrayRows_eq] at hmem
    obtain ⟨j, _, rfl⟩ := List.mem_map.mp hmem
    exact Or.inl ⟨_, _, rfl⟩
  · rw [arrayRows_eq] at hmem
    obtain ⟨j, _, rfl⟩ := List.mem_map.mp hmem
    exact Or.inr ⟨_, _, _, _, _, _, rfl⟩

/-- Witness for C3 (amended): `mixedEarnings` yields a three-key annual row
(2023-12-31, sorted first) and a seven-key quarterly row (2023-09-30). -/
theorem C3_witness :
    ∃ rows,
      Json.arr [
        Json.obj [("period_type", .str "annual"),
          ("fiscal_date_ending", .str "2023-12-31"), ("reported_eps", Json.null)],
        Json.obj [("period_type", .str "quarterly"),
          ("fiscal_date_ending", .str "2023-09-30"), ("reported_eps", Json.null),
          ("reported_date", Json.null), ("estimated_eps", Json.null),
          ("surprise", Json.null), ("surprise_percentage", Json.null)]] = .arr rows ∧
      ∀ r ∈ rows,
        (∃ fde eps, r = Json.obj [("period_type", .str "annual"),
           ("fiscal_date_ending", fde), ("reported_eps", eps)]) ∨
        (∃ fde eps rd ee s sp, r = Json.obj [("period_type", .str "quarterly"),
           ("fiscal_date_ending", fde), ("reported_eps", eps), ("reported_date", rd),
           ("estimated_eps", ee), ("surprise", s), ("surprise_percentage", sp)]) :=
  (C3_amended_earnings_row_shapes mixedEarnings _ _ _ rfl).2

/-- Shape of the three report transforms, for any row builder that tags
`period_type` first. -/
theorem transformReports_shape (rowOf : String → Json → Json) (schema : Schema)
    (response : Json)
    (hrow : ∀ pt report, (rowOf pt report).get "period_type" = some (.str pt)) :
    ∃ rows md, transformReports rowOf schema response = .ok (.arr rows, md, schema) ∧
      rows.length = arrLenOpt (response.get "annualReports") +
        arrLenOpt (response.get "quarterlyReports") ∧
      ∀ r ∈ rows, r.get "period_type" = some (.str "annual") ∨
        r.get "period_type" = some (.str "quarterly") := by
  refine ⟨sortBy (rowLe "fiscal_date_ending")
      (arrayRows (response.get "annualReports") (rowOf "annual") ++
       arrayRows (response.get "quarterlyReports") (rowOf "quarterly")),
    symbolMetadata response, rfl, ?_, ?_⟩
  · rw [sortBy_length, List.length_append, arrayRows_length, arrayRows_length]
  · intro r hr
    rcases List.mem_append.mp ((sortBy_perm _ _).mem_iff.mp hr) with hmem | hmem
    · rw [arrayRows_eq] at hmem
      obtain ⟨j, _, rfl⟩ := List.mem_map.mp hmem
      exact Or.inl (hrow "annual" j)
    · rw [arrayRows_eq] at hmem
      obtain ⟨j, _, rfl⟩ := List.mem_map.mp hmem
      exact Or.inr (hrow "quarterly" j)

theorem incomeRow_period_type (pt : String) (report : Json) :
    (incomeRow pt report).get "period_type" = some (.str pt) := by
  simp [incomeRow, Json.get, mapGet]

theorem balanceRow_period_type (pt : String) (report : Json) :
    (balanceRow pt report).get "period_type" = some (.str pt) := by
  simp [balanceRow, Json.get, mapGet]

theorem cashFlowRow_period_type (pt : String) (report : Json) :
    (cashFlowRow pt report).get "period_type" = some (.str pt) := by
  simp [cashFlowRow, Json.get, mapGet]

/-- C4: the income-statement, balance-sheet and cash-flow transformers
always succeed; every output row's `period_type` is `"annual"` or
`"quarterly"`, and the row count is `len(annualReports) +
len(quarterlyReports)`, an absent or non-array section contributing 0. -/
theorem C4_report_transforms :
    (∀ response, ∃ rows md,
      transform_income_statement_response response = .ok (.arr rows, md, incomeSchema) ∧
      rows.length = arrLenOpt (response.get "annualReports") +
        arrLenOpt (response.get "quarterlyReports") ∧
      ∀ r ∈ rows, r.get "period_type" = some (.str "annual") ∨
        r.get "period_type" = some (.str "quarterly")) ∧
    (∀ response, ∃ rows md,
      transform_balance_sheet_response response = .ok (.arr rows, md, balanceSchema) ∧
      rows.length = arrLenOpt (response.get "annualReports") +
        arrLenOpt (response.get "quarterlyReports") ∧
      ∀ r ∈ rows, r.get "period_type" = some (.str "annual") ∨
        r.get "period_type" = some (.str "quarterly")) ∧
    (∀ response, ∃ rows md,
      transform_cash_flow_response response = .ok (.arr rows, md, cashFlowSchema) ∧
      rows.length = arrLenOpt (response.get "annualReports") +
        arrLenOpt (response.get "quarterlyReports") ∧
      ∀ r ∈ rows, r.get "period_type" = some (.str "annual") ∨
        r.get "period_type" = some (.str "quarterly")) :=
  ⟨fun response => transformReports_shape incomeRow incomeSchema response incomeRow_period_type,
   fun response => transformReports_shape balanceRow balanceSchema response balanceRow_period_type,
   fun response => transformReports_shape cashFlowRow cashFlowSchema response cashFlowRow_period_type⟩

/-- Witness for C4: `sampleIncome` (one annual and one quarterly report)
yields exactly two rows, each tagged annual or quarterly. -/
theorem C4_witness :
    ∃ rows md,
      transform_income_statement_response sampleIncome = .ok (.arr rows, md, incomeSchema) ∧
      rows.length = 2 ∧
      ∀ r ∈ rows, r.get "period_type" = some (.str "annual") ∨
        r.get "period_type" = some (.str "quarterly") := by
  obtain ⟨rows, md, h1, h2, h3⟩ := C4_report_transforms.1 sampleIncome
  refine ⟨rows, md, h1, ?_, h3⟩
  rw [h2]
  rfl

/-- C9: when the `"estimates"` key is absent or an empty array, the
earnings-estimates transform succeeds with zero rows, with metadata
`{"symbol": s}` when the input holds a `symbol` field with value `s` and no
metadata otherwise. -/
theorem C9_estimates_empty :
    ∀ response,
      (response.get "estimates" = none ∨ response.get "estimates" = some (.arr [])) →
      ((∀ s, response.get "symbol" = some s →
        transform_earnings_estimates_response response =
          .ok (.arr [], some (.obj [("symbol", s)]), estimatesSchema)) ∧
       (response.get "symbol" = none →
        transform_earnings_estimates_response response =
          .ok (.arr [], none, estimatesSchema))) := by
  intro response hest
  have hrows : arrayRows (response.get "estimates") estimateRow = [] := by
    rcases hest with h | h <;> simp [arrayRows, h, Json.asArray]
  constructor
  · intro s hs
    unfold transform_earnings_estimates_response symbolMetadata
    rw [hrows, hs]
    rfl
  · intro hs
    unfold transform_earnings_estimates_response symbolMetadata
    rw [hrows, hs]
    rfl

/-- Witness for C9: the spec's scenario `{"symbol":"X","estimates":[]}`
returns zero rows, non-error, metadata `{"symbol":"X"}`. -/
theorem C9_witness :
    transform_earnings_estimates_response emptyEstimates =
      .ok (.arr [], some (.obj [("symbol", .str "X")]), estimatesSchema) :=
  (C9_estimates_empty emptyEstimates (Or.inr rfl)).1 (.str "X") rfl

/-- Counterexample to C5 as stated: the envelope `{"tool":"foo"}` has an
unknown tool string, yet `call_tool` returns the missing-params error, not
`UnknownTool` — the params check precedes the tool-id match. (It also shows
the params clause fails without a tool string: the claim's three clauses
cannot all hold unconditionally.) -/
theorem C5_counterexample :
    call_tool netTransport unknownToolRequest = .error (.custom "Missing 'params' field") ∧
    Error.custom "Missing 'params' field" ≠ .custom "Unknown tool: foo" :=
  ⟨rfl, by decide⟩

/-- C5 (amended): sequential envelope validation — a missing or non-string
`tool` yields the missing-tool error; with a tool string present, a missing
`params` yields the missing-params error; with both present, a tool id
outside the catalog's ten yields the unknown-tool error naming it. Each
result is the same for every transport, so no network request is issued,
and the total function `call_tool` never panics. -/
theorem C5_amended_envelope_validation :
    (∀ (transport : Transport) request, (request.get "tool").bind Json.asStr = none →
      call_tool transport request = .error (.custom "Missing 'tool' field")) ∧
    (∀ (transport : Transport) request t, (request.get "tool").bind Json.asStr = some t →
      request.get "params" = none →
      call_tool transport request = .error (.custom "Missing 'params' field")) ∧
    (∀ (transport : Transport) request t p, (request.get "tool").bind Json.asStr = some t →
      request.get "params" = some p → t ∉ list_tools.map ToolInfo.id →
      call_tool transport request = .error (.custom ("Unknown tool: " ++ t))) := by
  refine ⟨?_, ?_, ?_⟩
  · intro transport request h
    simp only [call_tool, h]
  · intro transport request t ht hp
    simp only [call_tool, ht, hp]
  · intro transport request t p ht hp hmem
    simp only [call_tool, ht, hp]
    simp only [list_tools, List.map_cons, List.map_nil, List.mem_cons,
      List.not_mem_nil, or_false, not_or] at hmem
    obtain ⟨h1, h2, h3, h4, h5, h6, h7, h8, h9, h10⟩ := hmem
    simp [h1, h2, h3, h4, h5, h6, h7, h8, h9, h10]

/-- Witness for C5 (amended): a well-formed envelope with the unknown id
`"foo"` produces exactly the unknown-tool error under the no-network
transport. -/
theorem C5_witness :
    call_tool netTransport (Json.obj [("tool", .str "foo"), ("params", .obj [])]) =
      .error (.custom "Unknown tool: foo") :=
  C5_amended_envelope_validation.2.2 netTransport
    (Json.obj [("tool", .str "foo"), ("params", .obj [])]) "foo" (.obj [])
    rfl rfl (by simp [list_tools])

/-- Counterexample to C6 as stated: with `outputsize` present as the number
`5` (not a string), `call_tool` does not return the invalid-outputsize
error — it proceeds to the network, returning whatever the transport
returns (two different transports give two different results); and with a
bad string `outputsize` but no `symbol`, the missing-symbol error wins. -/
theorem C6_counterexample :
    call_tool netTransport nonStringOutputsizeRequest = .error (.custom "network reached") ∧
    call_tool otherTransport nonStringOutputsizeRequest = .error (.custom "other response") ∧
    Error.custom "network reached" ≠ .custom "other response" ∧
    call_tool netTransport noSymbolOutputsizeRequest =
      .error (.custom "Missing 'symbol' parameter") :=
  ⟨rfl, rfl, by decide, rfl⟩

/-- C6 (amended): for the daily endpoint with a string `symbol`, and for the
intraday endpoint with a string `symbol` and a valid `interval`, an
`outputsize` value that is a *string* other than `"compact"`/`"full"` makes
`call_tool` return the invalid-outputsize error naming the value, the same
for every transport (no network request); a non-string `outputsize` is
ignored rather than rejected. -/
theorem C6_amended_outputsize_validation :
    (∀ (transport : Transport) params os symbol,
      (params.get "symbol").bind Json.asStr = some symbol →
      (params.get "outputsize").bind Json.asStr = some os →
      os ≠ "compact" → os ≠ "full" →
      call_tool transport (.obj [("tool", .str "time_series_daily"), ("params", params)]) =
        .error (.custom ("Invalid outputsize: " ++ os))) ∧
    (∀ (transport : Transport) params os symbol interval,
      (params.get "symbol").bind Json.asStr = some symbol →
      (params.get "interval").bind Json.asStr = some interval →
      interval ∈ (["1min", "5min", "15min", "30min", "60min"] : List String) →
      (params.get "outputsize").bind Json.asStr = some os →
      os ≠ "compact" → os ≠ "full" →
      call_tool transport (.obj [("tool", .str "time_series_intraday"), ("params", params)]) =
        .error (.custom ("Invalid outputsize: " ++ os))) := by
  constructor
  · intro transport params os symbol hsym hos h1 h2
    have hred : call_tool transport
        (.obj [("tool", .str "time_series_daily"), ("params", params)]) =
        callDaily transport params := rfl
    rw [hred]
    simp only [callDaily, hsym, parseOutputsize, hos, h1, h2, ite_false, if_neg]
  · intro transport params os symbol interval hsym hint hmem hos h1 h2
    have hred : call_tool transport
        (.obj [("tool", .str "time_series_intraday"), ("params", params)]) =
        callIntraday transport params := rfl
    rw [hred]
    simp only [List.mem_cons, List.not_mem_nil, or_false] at hmem
    rcases hmem with rfl | rfl | rfl | rfl | rfl <;>
      simp only [callIntraday, hsym, hint, parseInterval, parseOutputsize, hos, h1, h2] <;>
      simp [h1, h2]

/-- Witness for C6 (amended): the daily clause at
`outputsize = "huge"` under the no-network transport. -/
theorem C6_witness :
    call_tool netTransport (Json.obj [("tool", .str "time_series_daily"),
      ("params", .obj [("symbol", .str "IBM"), ("outputsize", .str "huge")])]) =
      .error (.custom "Invalid outputsize: huge") :=
  C6_amended_outputsize_validation.1 netTransport
    (.obj [("symbol", .str "IBM"), ("outputsize", .str "huge")]) "huge" "IBM"
    rfl rfl (by decide) (by decide)

/-- C10: for each of the ten ids in the catalog, `get_tool_details`
returns a descriptor whose `id` equals the queried id; for every other
string it returns `none`. Both operations are pure Lean functions —
deterministic, total, no I/O. -/
theorem C10_get_tool_details :
    (∀ tid ∈ list_tools.map ToolInfo.id,
      ∃ t, get_tool_details tid = some t ∧ t.id = tid) ∧
    (∀ s, s ∉ list_tools.map ToolInfo.id → get_tool_details s = none) := by
  constructor
  · intro tid h
    simp only [list_tools, List.map_cons, List.map_nil, List.mem_cons,
      List.not_mem_nil, or_false] at h
    rcases h with rfl | rfl | rfl | rfl | rfl | rfl | rfl | rfl | rfl | rfl <;>
      exact ⟨_, rfl, rfl⟩
  · intro s h
    simp only [list_tools, List.map_cons, List.map_nil, List.mem_cons,
      List.not_mem_nil, or_false, not_or] at h
    obtain ⟨h1, h2, h3, h4, h5, h6, h7, h8, h9, h10⟩ := h
    unfold get_tool_details
    refine List.find?_eq_none.mpr ?_
    intro x hx
    simp only [list_tools, List.mem_cons, List.not_mem_nil, or_false] at hx
    rcases hx with rfl | rfl | rfl | rfl | rfl | rfl | rfl | rfl | rfl | rfl <;>
      simp only [beq_iff_eq] <;>
      first
        | exact fun hh => h1 hh.symm
        | exact fun hh => h2 hh.symm
        | exact fun hh => h3 hh.symm
        | exact fun hh => h4 hh.symm
        | exact fun hh => h5 hh.symm
        | exact fun hh => h6 hh.symm
        | exact fun hh => h7 hh.symm
        | exact fun hh => h8 hh.symm
        | exact fun hh => h9 hh.symm
        | exact fun hh => h10 hh.symm

/-- Witness for C10: `"earnings"` resolves to a descriptor with that id;
`"foo"` resolves to none. -/
theorem C10_witness :
    (∃ t, get_tool_details "earnings" = some t ∧ t.id = "earnings") ∧
    get_tool_details "foo" = none :=
  ⟨C10_get_tool_details.1 "earnings" (by simp [list_tools]),
   C10_get_tool_details.2 "foo" (by simp [list_tools])⟩

end Alphav
